import Mathlib

/-!
Verification of the peer-to-peer conversation engine of blockstack-core
(`src/net/chat.rs` and `src/net/p2p.rs`).

Modelling conventions:
* Machine integers (`u16`, `u32`, `u64`) are `Nat`.  Where overflow matters the
  reduction modulo `2^32` or `2^64` is explicit (`u64_checked_add`,
  `u64_wrapping_add`, the `seq` counter).  The monotonic `u64` statistics
  counters are plain `Nat` additions: their wraparound is unreachable.
* Rust `HashMap` and `VecDeque` are association lists (newest binding first,
  read through `List.lookup`) and plain lists (front of the deque at the head).
* `get_epoch_time_secs()` is a `now : Nat` parameter threaded into every
  operation that reads the clock; all reads within one call are one instant.
* Cryptography is idealised exactly as the specification prescribes
  (sign/verify as a black box): a signature records the public key of the
  signer, and verification compares it with the expected key.
* `f64` is `ℚ`: every value `get_health_score` can produce (`0.5` and
  `s / 32` for `0 ≤ s ≤ 32`) is exactly representable in an IEEE double, so
  the rational semantics coincides with the floating-point one.
-/

/-- Error type of the `net` crate (`net::Error`); only the variants the
embedded code can produce or inspect are modelled. -/
inductive NetError where
  | InvalidMessage
  | InvalidHandshake
  | DeserializeError
  | DBError
  | SocketError
  | AlreadyConnected
  | TooManyPeers
  | NotConnected
deriving DecidableEq, Repr

/-- 20-byte consensus hash, abstracted to its numeric value. -/
structure ConsensusHash where
  val : Nat
deriving DecidableEq, Repr

/-- 16-byte peer address, abstracted to its numeric value. -/
abbrev PeerAddress := Nat

/-- A socket address: peer address bytes plus a port. -/
structure SocketAddr where
  addr : PeerAddress
  port : Nat
deriving DecidableEq, Repr

/-- `PeerAddress::from_socketaddr`. -/
def PeerAddress.from_socketaddr (a : SocketAddr) : PeerAddress := a.addr

/-- Routing identity of a neighbor (`NeighborKey` in `net/mod.rs`). -/
structure NeighborKey where
  peer_version : Nat
  network_id : Nat
  addrbytes : PeerAddress
  port : Nat
deriving DecidableEq, Repr

/-- Modelled from the spec: key derivation `Secp256k1PublicKey::from_private`
(`util/secp256k1.rs` is not in src).  Keys are idealised as numbers and the
derivation is injective; the identity serves. -/
def pubOf (priv : Nat) : Nat := priv

/-- A serialized 33-byte public key buffer (`StacksPublicKeyBuffer`).
`wellFormed` models whether the bytes decode as a secp256k1 point. -/
structure StacksPublicKeyBuffer where
  bytes : Nat
  wellFormed : Bool
deriving DecidableEq, Repr

/-- Modelled from the spec: `StacksPublicKeyBuffer::from_public_key`
(`net/codec.rs` is not in src); a serialized genuine key always decodes. -/
def StacksPublicKeyBuffer.from_public_key (k : Nat) : StacksPublicKeyBuffer :=
  { bytes := k, wellFormed := true }

/-- Modelled from the spec: `StacksPublicKeyBuffer::to_public_key`
(`net/codec.rs` is not in src); decoding fails on a malformed buffer. -/
def StacksPublicKeyBuffer.to_public_key (b : StacksPublicKeyBuffer) :
    Except NetError Nat :=
  if b.wellFormed then .ok b.bytes else .error .DeserializeError

/-- `HandshakeData` payload fields. -/
structure HandshakeData where
  addrbytes : PeerAddress
  port : Nat
  services : Nat
  node_public_key : StacksPublicKeyBuffer
  expire_block_height : Nat
  data_url : String
deriving DecidableEq, Repr

/-- `HandshakeAcceptData` payload fields. -/
structure HandshakeAcceptData where
  handshake : HandshakeData
  heartbeat_interval : Nat
deriving DecidableEq, Repr

/-- `PingData`. -/
structure PingData where
  nonce : Nat
deriving DecidableEq, Repr

/-- `PongData`. -/
structure PongData where
  nonce : Nat
deriving DecidableEq, Repr

/-- `PongData::from_ping`. -/
def PongData.from_ping (p : PingData) : PongData := { nonce := p.nonce }

/-- `NackData`. -/
structure NackData where
  error_code : Nat
deriving DecidableEq, Repr

/-- `NeighborsData`: the advertised neighbor addresses. -/
structure NeighborsData where
  neighbors : List NeighborKey
deriving DecidableEq, Repr

/-- The closed tagged union of p2p message payloads in scope
(`StacksMessageType`). -/
inductive StacksMessageType where
  | handshake (d : HandshakeData)
  | handshakeAccept (d : HandshakeAcceptData)
  | handshakeReject
  | getNeighbors
  | neighbors (d : NeighborsData)
  | ping (d : PingData)
  | pong (d : PongData)
  | nack (d : NackData)
deriving DecidableEq, Repr

/-- `StacksMessageID` of a payload (`get_message_id`). -/
def StacksMessageType.get_message_id : StacksMessageType → Nat
  | .handshake _ => 0
  | .handshakeAccept _ => 1
  | .handshakeReject => 2
  | .getNeighbors => 3
  | .neighbors _ => 4
  | .ping _ => 5
  | .pong _ => 6
  | .nack _ => 7

/-- The fixed-size message preamble.  The idealised `signature` is `none`
when the 65 signature bytes are zeroed, and `some k` when the message was
signed by the holder of the private key for `k`. -/
structure Preamble where
  peer_version : Nat
  network_id : Nat
  seq : Nat
  burn_block_height : Nat
  burn_consensus_hash : ConsensusHash
  burn_stable_block_height : Nat
  burn_stable_consensus_hash : ConsensusHash
  additional_data : Nat
  signature : Option Nat
  payload_len : Nat
deriving DecidableEq, Repr

/-- A signed p2p message: preamble plus payload. -/
structure StacksMessage where
  preamble : Preamble
  payload : StacksMessageType
deriving DecidableEq, Repr

/-- The burnchain view a conversation validates preambles against. -/
structure BurnchainView where
  burn_block_height : Nat
  burn_consensus_hash : ConsensusHash
  burn_stable_block_height : Nat
  burn_stable_consensus_hash : ConsensusHash
  last_consensus_hashes : List (Nat × ConsensusHash)
deriving DecidableEq, Repr

/-- Modelled from the spec: `StacksMessage::from_chain_view` (`net/codec.rs`
is not in src) builds an unsigned message whose preamble carries the
burnchain anchors of the given view. -/
def StacksMessage.from_chain_view (peer_version network_id : Nat)
    (v : BurnchainView) (payload : StacksMessageType) : StacksMessage :=
  { preamble :=
      { peer_version := peer_version
        network_id := network_id
        seq := 0
        burn_block_height := v.burn_block_height
        burn_consensus_hash := v.burn_consensus_hash
        burn_stable_block_height := v.burn_stable_block_height
        burn_stable_consensus_hash := v.burn_stable_consensus_hash
        additional_data := 0
        signature := none
        payload_len := 0 }
    payload := payload }

/-- Modelled from the spec: `StacksMessage::sign` (`net/codec.rs` is not in
src) sets the sequence number and writes a recoverable signature; the
idealised signature records the signer's public key. -/
def StacksMessage.sign (m : StacksMessage) (seq : Nat) (priv : Nat) :
    StacksMessage :=
  { m with preamble := { m.preamble with seq := seq, signature := some (pubOf priv) } }

/-- Modelled from the spec: `StacksMessage::verify_secp256k1` (`net/codec.rs`
is not in src): recovery of the signature must yield the given key buffer. -/
def StacksMessage.verify_secp256k1 (m : StacksMessage)
    (buf : StacksPublicKeyBuffer) : Bool :=
  buf.wellFormed && m.preamble.signature == some buf.bytes

/-- Modelled from the spec: verification against an already-decoded public
key, as the connection layer performs on authenticated conversations. -/
def verify_pub (m : StacksMessage) (k : Nat) : Bool :=
  m.preamble.signature == some k

/-- `NUM_HEALTH_POINTS` (chat.rs). -/
def NUM_HEALTH_POINTS : Nat := 32

/-- `HEALTH_POINT_LIFETIME = 12 * 3600` seconds (chat.rs). -/
def HEALTH_POINT_LIFETIME : Nat := 12 * 3600

/-- Modelled from the spec: `MAX_NEIGHBOR_BLOCK_DELAY` is declared in
`net/neighbors.rs`, which is not in src; the claims hold for any value. -/
def MAX_NEIGHBOR_BLOCK_DELAY : Nat := 288

/-- Modelled from the spec: `NackErrorCodes::HandshakeRequired`
(`net/mod.rs` is not in src); the claims only use it symbolically. -/
def NackErrorCodes.HandshakeRequired : Nat := 1

/-- `u64::checked_add`: `none` on overflow. -/
def u64_checked_add (a b : Nat) : Option Nat :=
  if a + b < 2 ^ 64 then some (a + b) else none

/-- Release-mode `u64` addition (wraps on overflow). -/
def u64_wrapping_add (a b : Nat) : Nat := (a + b) % 2 ^ 64

/-- The burnchain configuration carried by every conversation
(`burnchains::Burnchain`); `stable_confirmations` is a `u32` that the code
widens to `u64`. -/
structure Burnchain where
  peer_version : Nat
  network_id : Nat
  chain_name : String
  network_name : String
  working_dir : String
  consensus_hash_lifetime : Nat
  stable_confirmations : Nat
  first_block_height : Nat
deriving DecidableEq, Repr

/-- Modelled from the spec: the local peer record (`net/db.rs` is not in
src): identity, serving key and its expiry. -/
structure LocalPeer where
  network_id : Nat
  addrbytes : PeerAddress
  port : Nat
  services : Nat
  private_key : Nat
  private_key_expire : Nat
  data_url : String
deriving DecidableEq, Repr

/-- Modelled from the spec: `HandshakeData::from_local_peer` (`net/codec.rs`
is not in src) advertises the local identity and serving key. -/
def HandshakeData.from_local_peer (lp : LocalPeer) : HandshakeData :=
  { addrbytes := lp.addrbytes
    port := lp.port
    services := lp.services
    node_public_key := StacksPublicKeyBuffer.from_public_key (pubOf lp.private_key)
    expire_block_height := lp.private_key_expire
    data_url := lp.data_url }

/-- Modelled from the spec: `HandshakeAcceptData::new`. -/
def HandshakeAcceptData.new (lp : LocalPeer) (heartbeat : Nat) :
    HandshakeAcceptData :=
  { handshake := HandshakeData.from_local_peer lp, heartbeat_interval := heartbeat }

/-- Modelled from the spec: connection options (`net/connection.rs` is not in
src); only the fields the embedded code reads. -/
structure ConnectionOptions where
  heartbeat : Nat
  num_clients : Nat
deriving DecidableEq, Repr

/-- Modelled from the spec: the per-socket connection buffer `ConnectionP2P`
(`net/connection.rs` is not in src).  Per §4.C it owns a decoded inbox, an
outbox, the table of outstanding request sequence numbers, and the
authenticated public key slot.  Its decoder only delivers inbox messages
that verify against the bound key once one is set (§8, signature
soundness). -/
structure ConnectionP2P where
  inbox : List StacksMessage
  outbox : List StacksMessage
  requests : List Nat
  public_key : Option Nat
deriving DecidableEq, Repr

/-- Modelled from the spec: `ConnectionP2P::new` with no bound key. -/
def ConnectionP2P.new (k : Option Nat) : ConnectionP2P :=
  { inbox := [], outbox := [], requests := [], public_key := k }

/-- `Connection::has_public_key`. -/
def ConnectionP2P.has_public_key (c : ConnectionP2P) : Bool :=
  c.public_key.isSome

/-- `Connection::get_public_key`. -/
def ConnectionP2P.get_public_key (c : ConnectionP2P) : Option Nat :=
  c.public_key

/-- `Connection::set_public_key`. -/
def ConnectionP2P.set_public_key (c : ConnectionP2P) (k : Option Nat) :
    ConnectionP2P :=
  { c with public_key := k }

/-- Modelled from the spec: `is_solicited` is true iff the message's
sequence number matches an outstanding request entry (§4.C). -/
def ConnectionP2P.is_solicited (c : ConnectionP2P) (m : StacksMessage) : Bool :=
  c.requests.contains m.preamble.seq

/-- Modelled from the spec: `fulfill_request` delivers a message matching an
outstanding request to that request's reply sink (consuming the table entry
and the message) and hands back anything else (§4.C). -/
def ConnectionP2P.fulfill_request (c : ConnectionP2P) (m : StacksMessage) :
    ConnectionP2P × Option StacksMessage :=
  if c.requests.contains m.preamble.seq then
    ({ c with requests := c.requests.erase m.preamble.seq }, none)
  else
    (c, some m)

/-- One health sample (`NeighborHealthPoint`). -/
structure NeighborHealthPoint where
  success : Bool
  time : Nat
deriving DecidableEq, Repr

/-- Per-peer statistics (`NeighborStats`).  `msg_rx_counts` is the `HashMap`
read through `List.lookup` with the newest binding first. -/
structure NeighborStats where
  outbound : Bool
  first_contact_time : Nat
  last_contact_time : Nat
  last_send_time : Nat
  last_recv_time : Nat
  last_handshake_time : Nat
  bytes_tx : Nat
  bytes_rx : Nat
  msgs_tx : Nat
  msgs_rx : Nat
  msgs_rx_unsolicited : Nat
  msgs_err : Nat
  healthpoints : List NeighborHealthPoint
  peer_resets : Nat
  last_reset_time : Nat
  msg_rx_counts : List (Nat × Nat)
deriving DecidableEq, Repr

/-- `NeighborStats::new`. -/
def NeighborStats.new (outbound : Bool) : NeighborStats :=
  { outbound := outbound
    first_contact_time := 0
    last_contact_time := 0
    last_send_time := 0
    last_recv_time := 0
    last_handshake_time := 0
    bytes_tx := 0
    bytes_rx := 0
    msgs_tx := 0
    msgs_rx := 0
    msgs_rx_unsolicited := 0
    msgs_err := 0
    healthpoints := []
    peer_resets := 0
    last_reset_time := 0
    msg_rx_counts := [] }

/-- The `while self.healthpoints.len() > NUM_HEALTH_POINTS { pop_front }`
loop of `add_healthpoint`. -/
def trim_healthpoints : List NeighborHealthPoint → List NeighborHealthPoint
  | [] => []
  | hp :: t => if (hp :: t).length > NUM_HEALTH_POINTS then trim_healthpoints t else hp :: t

/-- `NeighborStats::add_healthpoint`: push the new sample at the back, then
evict from the front while over the bound. -/
def NeighborStats.add_healthpoint (s : NeighborStats) (success : Bool)
    (now : Nat) : NeighborStats :=
  { s with healthpoints := trim_healthpoints (s.healthpoints ++ [⟨success, now⟩]) }

/-- `NeighborStats::get_health_score`.  `f64` is modelled as `ℚ`; every value
this function can produce is exactly representable in an IEEE double. -/
def NeighborStats.get_health_score (s : NeighborStats) (now : Nat) : ℚ :=
  if s.healthpoints.length < NUM_HEALTH_POINTS then (1 : ℚ) / 2
  else
    ((s.healthpoints.countP
        (fun hp => hp.success && decide (now < hp.time + HEALTH_POINT_LIFETIME))) : ℚ)
      / ((s.healthpoints.length) : ℚ)

/-- The per-peer protocol state machine (`Conversation`). -/
structure Conversation where
  connection : ConnectionP2P
  conn_id : Nat
  burnchain : Burnchain
  seq : Nat
  heartbeat : Nat
  peer_network_id : Nat
  peer_version : Nat
  peer_services : Nat
  peer_addrbytes : PeerAddress
  peer_port : Nat
  peer_heartbeat : Nat
  peer_expire_block_height : Nat
  data_url : String
  burnchain_tip_height : Nat
  burnchain_tip_consensus_hash : ConsensusHash
  stats : NeighborStats
deriving DecidableEq, Repr

/-- `Conversation::new`. -/
def Conversation.new (burnchain : Burnchain) (peer_addr : SocketAddr)
    (conn_opts : ConnectionOptions) (outbound : Bool) (conn_id : Nat) :
    Conversation :=
  { connection := ConnectionP2P.new none
    conn_id := conn_id
    seq := 0
    heartbeat := conn_opts.heartbeat
    burnchain := burnchain
    peer_network_id := 0
    peer_version := 0
    peer_addrbytes := PeerAddress.from_socketaddr peer_addr
    peer_port := peer_addr.port
    peer_heartbeat := 0
    peer_services := 0
    peer_expire_block_height := 0
    data_url := ""
    burnchain_tip_height := 0
    burnchain_tip_consensus_hash := ⟨0⟩
    stats := NeighborStats.new outbound }

/-- `Conversation::from_peer_reset`: fresh connection buffer and sequence,
learned peer identity preserved, reset statistics bumped. -/
def Conversation.from_peer_reset (convo : Conversation)
    (conn_opts : ConnectionOptions) (now : Nat) : Conversation :=
  { connection := ConnectionP2P.new none
    conn_id := convo.conn_id
    seq := 0
    heartbeat := conn_opts.heartbeat
    burnchain := convo.burnchain
    peer_network_id := convo.peer_network_id
    peer_version := convo.peer_version
    peer_addrbytes := convo.peer_addrbytes
    peer_port := convo.peer_port
    peer_heartbeat := convo.peer_heartbeat
    peer_services := convo.peer_services
    peer_expire_block_height := convo.peer_expire_block_height
    data_url := convo.data_url
    burnchain_tip_height := convo.burnchain_tip_height
    burnchain_tip_consensus_hash := convo.burnchain_tip_consensus_hash
    stats := { convo.stats with
      peer_resets := convo.stats.peer_resets + 1
      last_reset_time := now } }

/-- `Conversation::set_public_key`. -/
def Conversation.set_public_key (c : Conversation) (k : Option Nat) :
    Conversation :=
  { c with connection := c.connection.set_public_key k }

/-- `Conversation::to_neighbor_key`. -/
def Conversation.to_neighbor_key (c : Conversation) : NeighborKey :=
  { peer_version := c.peer_version
    network_id := c.peer_network_id
    addrbytes := c.peer_addrbytes
    port := c.peer_port }

/-- `Conversation::check_consensus_hash_disagreement`: true iff our view
knows a consensus hash at that height and it differs from theirs. -/
def check_consensus_hash_disagreement (block_height : Nat)
    (their_consensus_hash : ConsensusHash) (chain_view : BurnchainView) : Bool :=
  match chain_view.last_consensus_hashes.lookup block_height with
  | some ch => ch != their_consensus_hash
  | none => false

/-- `Conversation::is_preamble_valid` (chat.rs lines 412-453), translated
check for check. -/
def Conversation.is_preamble_valid (c : Conversation) (msg : StacksMessage)
    (chain_view : BurnchainView) : Except NetError Bool :=
  if msg.preamble.network_id ≠ c.burnchain.network_id then
    .error .InvalidMessage
  else if msg.preamble.peer_version &&& 0xff000000 ≠
      c.burnchain.peer_version &&& 0xff000000 then
    .error .InvalidMessage
  else if u64_checked_add msg.preamble.burn_stable_block_height
      c.burnchain.stable_confirmations ≠ some msg.preamble.burn_block_height then
    .error .InvalidMessage
  else if msg.preamble.burn_stable_block_height >
      u64_wrapping_add chain_view.burn_block_height MAX_NEIGHBOR_BLOCK_DELAY then
    .ok false
  else if check_consensus_hash_disagreement msg.preamble.burn_block_height
      msg.preamble.burn_consensus_hash chain_view then
    .ok false
  else if check_consensus_hash_disagreement msg.preamble.burn_stable_block_height
      msg.preamble.burn_stable_consensus_hash chain_view then
    .error .InvalidMessage
  else
    .ok true

/-- The claim's reading of the preamble verdict, stated in the claim's own
vocabulary: a flat guard chain whose overflow and consensus-hash conditions
are spelled out rather than delegated to `checked_add` and the
disagreement helper. -/
def is_preamble_valid_claim (c : Conversation) (msg : StacksMessage)
    (chain_view : BurnchainView) : Except NetError Bool :=
  if msg.preamble.network_id ≠ c.burnchain.network_id then
    .error .InvalidMessage
  else if msg.preamble.peer_version &&& 0xff000000 ≠
      c.burnchain.peer_version &&& 0xff000000 then
    .error .InvalidMessage
  else if msg.preamble.burn_stable_block_height +
        c.burnchain.stable_confirmations ≥ 2 ^ 64 ∨
      msg.preamble.burn_stable_block_height +
        c.burnchain.stable_confirmations ≠ msg.preamble.burn_block_height then
    .error .InvalidMessage
  else if msg.preamble.burn_stable_block_height >
      u64_wrapping_add chain_view.burn_block_height MAX_NEIGHBOR_BLOCK_DELAY then
    .ok false
  else if (chain_view.last_consensus_hashes.lookup
        msg.preamble.burn_block_height).any
      (fun ch => ch != msg.preamble.burn_consensus_hash) then
    .ok false
  else if (chain_view.last_consensus_hashes.lookup
        msg.preamble.burn_stable_block_height).any
      (fun ch => ch != msg.preamble.burn_stable_consensus_hash) then
    .error .InvalidMessage
  else
    .ok true

theorem checked_add_ne_iff (a b h : Nat) :
    (u64_checked_add a b ≠ some h) ↔ (a + b ≥ 2 ^ 64 ∨ a + b ≠ h) := by
  unfold u64_checked_add
  split
  next hlt =>
    simp only [ne_eq, Option.some.injEq]
    omega
  next hlt =>
    constructor
    · intro _
      left
      omega
    · intro _ hcon
      exact Option.noConfusion hcon

theorem disagreement_eq_any (h : Nat) (x : ConsensusHash) (v : BurnchainView) :
    check_consensus_hash_disagreement h x v =
      (v.last_consensus_hashes.lookup h).any (fun ch => ch != x) := by
  unfold check_consensus_hash_disagreement
  cases v.last_consensus_hashes.lookup h <;> rfl

/-- C1: `is_preamble_valid` realises exactly the claimed three-valued
verdict: wrong network id, major-version mismatch, or a stable height that
does not add up (checked addition, overflow included) give
`Err(InvalidMessage)`; a stable height too far past our view gives
`Ok(false)`; a known-but-different consensus hash at the unstable height
gives `Ok(false)`; a known-but-different consensus hash at the stable
height gives `Err(InvalidMessage)`; everything else gives `Ok(true)`. -/
theorem C1_is_preamble_valid_verdict (c : Conversation) (msg : StacksMessage)
    (chain_view : BurnchainView) :
    c.is_preamble_valid msg chain_view = is_preamble_valid_claim c msg chain_view := by
  unfold Conversation.is_preamble_valid is_preamble_valid_claim
  have h3 := checked_add_ne_iff msg.preamble.burn_stable_block_height
    c.burnchain.stable_confirmations msg.preamble.burn_block_height
  have h5 := disagreement_eq_any msg.preamble.burn_block_height
    msg.preamble.burn_consensus_hash chain_view
  have h6 := disagreement_eq_any msg.preamble.burn_stable_block_height
    msg.preamble.burn_stable_consensus_hash chain_view
  split_ifs <;> simp_all <;> omega

/-- `Conversation::next_seq`: the counter is reset to 0 when it stands at
`u32::MAX` before being read and post-incremented. -/
def Conversation.next_seq (c : Conversation) : Nat × Conversation :=
  let c := if c.seq = 2 ^ 32 - 1 then { c with seq := 0 } else c
  (c.seq, { c with seq := c.seq + 1 })

/-- `Conversation::sign_message`: build a message from the chain view and
sign it with the next sequence number. -/
def Conversation.sign_message (c : Conversation) (chain_view : BurnchainView)
    (private_key : Nat) (payload : StacksMessageType) :
    StacksMessage × Conversation :=
  let msg := StacksMessage.from_chain_view c.burnchain.peer_version
    c.burnchain.network_id chain_view payload
  let (s, c2) := c.next_seq
  (msg.sign s private_key, c2)

/-- `Conversation::sign_reply`: sign with a caller-chosen sequence number. -/
def Conversation.sign_reply (c : Conversation) (chain_view : BurnchainView)
    (private_key : Nat) (payload : StacksMessageType) (seq : Nat) :
    StacksMessage × Conversation :=
  let msg := StacksMessage.from_chain_view c.burnchain.peer_version
    c.burnchain.network_id chain_view payload
  (msg.sign seq private_key, c)

/-- `Conversation::relay_signed_message`: serialize into a relay handle
(outbox) and count the transmission. -/
def Conversation.relay_signed_message (c : Conversation) (msg : StacksMessage) :
    Conversation :=
  { c with
    connection := { c.connection with outbox := c.connection.outbox ++ [msg] }
    stats := { c.stats with msgs_tx := c.stats.msgs_tx + 1 } }

/-- `Conversation::handle_ping`: answer with a pong carrying the same nonce.
The source panics on a non-ping payload; the caller always matches first. -/
def Conversation.handle_ping (c : Conversation) (chain_view : BurnchainView)
    (message : StacksMessage) : Except NetError (Option StacksMessage) :=
  match message.payload with
  | .ping data =>
      .ok (some (StacksMessage.from_chain_view c.burnchain.peer_version
        c.burnchain.network_id chain_view (.pong (PongData.from_ping data))))
  | _ => .error .InvalidMessage

/-- `Conversation::validate_handshake` (chat.rs lines 514-565).  The source
panics on a non-handshake payload; the caller always matches first. -/
def Conversation.validate_handshake (c : Conversation) (local_peer : LocalPeer)
    (chain_view : BurnchainView) (message : StacksMessage) :
    Except NetError Unit := do
  let handshake_data ← match message.payload with
    | .handshake data => pure data
    | _ => throw .InvalidMessage
  match c.connection.get_public_key with
  | none =>
      if ¬ message.verify_secp256k1 handshake_data.node_public_key then
        throw .InvalidMessage
  | some _ =>
      if c.stats.outbound ∧ (c.peer_addrbytes ≠ handshake_data.addrbytes ∨
          c.peer_port ≠ handshake_data.port) then
        throw .InvalidHandshake
  match handshake_data.node_public_key.to_public_key with
  | .ok _ => pure ()
  | .error _ => throw .InvalidMessage
  if handshake_data.expire_block_height ≤ chain_view.burn_block_height then
    throw .InvalidHandshake
  if handshake_data.node_public_key =
      StacksPublicKeyBuffer.from_public_key
        (pubOf local_peer.private_key) then
    throw .InvalidHandshake
  pure ()

/-- `Conversation::update_from_handshake_data`: decode the advertised key
(failure propagates before any mutation), copy the learned peer fields and
bind the key. -/
def Conversation.update_from_handshake_data (c : Conversation)
    (preamble : Preamble) (handshake_data : HandshakeData) :
    Except NetError Conversation :=
  match handshake_data.node_public_key.to_public_key with
  | .error e => .error e
  | .ok pubk =>
      .ok { c with
        peer_version := preamble.peer_version
        peer_network_id := preamble.network_id
        peer_services := handshake_data.services
        peer_expire_block_height := handshake_data.expire_block_height
        data_url := handshake_data.data_url
        connection := c.connection.set_public_key (some pubk) }

/-- `Conversation::handle_handshake`: validate; an `InvalidHandshake` verdict
becomes a `HandshakeReject` reply, other errors propagate; on success absorb
the handshake data and reply `HandshakeAccept`. -/
def Conversation.handle_handshake (c : Conversation) (local_peer : LocalPeer)
    (chain_view : BurnchainView) (message : StacksMessage) :
    Conversation × Except NetError (Option StacksMessage) :=
  match c.validate_handshake local_peer chain_view message with
  | .error .InvalidHandshake =>
      (c, .ok (some (StacksMessage.from_chain_view c.burnchain.peer_version
        c.burnchain.network_id chain_view .handshakeReject)))
  | .error e => (c, .error e)
  | .ok _ =>
      match message.payload with
      | .handshake handshake_data =>
          match c.update_from_handshake_data message.preamble handshake_data with
          | .error e => (c, .error e)
          | .ok c2 =>
              let accept_data := HandshakeAcceptData.new local_peer c.heartbeat
              (c2, .ok (some (StacksMessage.from_chain_view
                c.burnchain.peer_version c.burnchain.network_id chain_view
                (.handshakeAccept accept_data))))
      | _ => (c, .error .InvalidMessage)

/-- `Conversation::handle_handshake_accept`: absorb the nested handshake
data (this also rebinds the public key), record the peer's heartbeat and
the handshake time; no reply. -/
def Conversation.handle_handshake_accept (c : Conversation)
    (preamble : Preamble) (handshake_accept : HandshakeAcceptData) (now : Nat) :
    Conversation × Except NetError (Option StacksMessage) :=
  match c.update_from_handshake_data preamble handshake_accept.handshake with
  | .error e => (c, .error e)
  | .ok c2 =>
      ({ c2 with
          peer_heartbeat := handshake_accept.heartbeat_interval
          stats := { c2.stats with last_handshake_time := now } },
        .ok none)

/-- Result of processing one inbox message inside `chat`: skip it (stale or
non-fatal failure), abort the whole call (protocol violation), or processed
with an optional upward-forwarded message and an optional signed reply. -/
inductive ChatStepResult where
  | skip
  | fatal (e : NetError)
  | processed (forward : Option StacksMessage) (reply : Option StacksMessage)
deriving DecidableEq, Repr

/-- The payload dispatch of `chat` (chat.rs lines 727-833): returns the
`solicited` flag, the `consume_unsolicited` flag, the possibly-updated
conversation and the handler's reply verdict.  `solicited` starts `true`
and is recomputed from the request table only on the unauthenticated
branch, exactly as in the source. -/
def Conversation.chat_dispatch (c : Conversation) (local_peer : LocalPeer)
    (burnchain_view : BurnchainView) (now : Nat) (msg : StacksMessage) :
    Bool × Bool × Conversation × Except NetError (Option StacksMessage) :=
  if c.connection.has_public_key then
    match msg.payload with
    | .handshake _ =>
        let cur_public_key_opt := c.connection.get_public_key
        let (c2, handshake_res) := c.handle_handshake local_peer burnchain_view msg
        let consume :=
          if handshake_res.isOk then
            match cur_public_key_opt, c2.connection.get_public_key with
            | some old_public_key, some new_public_key =>
                if old_public_key ≠ new_public_key then false else true
            | none, some _ => false
            | _, _ => false
          else false
        (true, consume, c2, handshake_res)
    | .handshakeAccept data =>
        let (c2, res) := c.handle_handshake_accept msg.preamble data now
        (true, false, c2, res)
    | .ping _ => (true, true, c, c.handle_ping burnchain_view msg)
    | .pong _ => (true, true, c, .ok none)
    | _ => (true, false, c, .ok none)
  else
    let solicited := c.connection.is_solicited msg
    match msg.payload with
    | .handshake _ =>
        let (c2, res) := c.handle_handshake local_peer burnchain_view msg
        (solicited, false, c2, res)
    | .handshakeAccept data =>
        if solicited then
          let (c2, res) := c.handle_handshake_accept msg.preamble data now
          (solicited, false, c2, res)
        else
          (solicited, true, c, .ok none)
    | .handshakeReject => (solicited, false, c, .ok none)
    | .nack _ => (solicited, false, c, .ok none)
    | _ =>
        let nack_payload := StacksMessageType.nack ⟨NackErrorCodes.HandshakeRequired⟩
        let nack := StacksMessage.from_chain_view c.burnchain.peer_version
          c.burnchain.network_id burnchain_view nack_payload
        (solicited, true, c, .ok (some nack))

/-- The statistics update of `chat` (chat.rs lines 848-869): a solicited
message counts fully, an unsolicited one only bumps its counter. -/
def Conversation.chat_update_stats (c : Conversation) (solicited : Bool)
    (msg : StacksMessage) (now : Nat) : Conversation :=
  if solicited then
    let s0 := c.stats
    let s1 := if s0.first_contact_time = 0 then
        { s0 with first_contact_time := now } else s0
    let msg_id := msg.payload.get_message_id
    let count := match s1.msg_rx_counts.lookup msg_id with
      | none => 1
      | some cnt => cnt + 1
    let s2 := { s1 with
      msg_rx_counts := (msg_id, count) :: s1.msg_rx_counts
      msgs_rx := s1.msgs_rx + 1
      last_recv_time := now
      last_contact_time := now }
    { c with stats := s2.add_healthpoint true now }
  else
    { c with stats := { c.stats with
        msgs_rx_unsolicited := c.stats.msgs_rx_unsolicited + 1 } }

/-- One iteration of the `chat` loop on an already-popped message:
preamble validation, payload dispatch, automatic reply (signed with the
inbound sequence number and relayed), statistics, request fulfilment. -/
def Conversation.chat_step (c : Conversation) (local_peer : LocalPeer)
    (burnchain_view : BurnchainView) (now : Nat) (msg : StacksMessage) :
    Conversation × ChatStepResult :=
  match c.is_preamble_valid msg burnchain_view with
  | .ok false =>
      ({ c with stats :=
          (( { c.stats with msgs_err := c.stats.msgs_err + 1 }
            : NeighborStats).add_healthpoint false now) }, .skip)
  | .error .InvalidMessage =>
      ({ c with stats :=
          (( { c.stats with msgs_err := c.stats.msgs_err + 1 }
            : NeighborStats).add_healthpoint false now) }, .fatal .InvalidMessage)
  | .error _ =>
      ({ c with stats :=
          (( { c.stats with msgs_err := c.stats.msgs_err + 1 }
            : NeighborStats).add_healthpoint false now) }, .skip)
  | .ok true =>
      let (solicited, consume_unsolicited, c1, reply_opt_res) :=
        c.chat_dispatch local_peer burnchain_view now msg
      match reply_opt_res with
      | .error e => (c1, .fatal e)
      | .ok reply_opt =>
          let (c2, reply_sent) := match reply_opt with
            | none => (c1, (none : Option StacksMessage))
            | some reply =>
                let signed := reply.sign msg.preamble.seq local_peer.private_key
                (c1.relay_signed_message signed, some signed)
          let c3 := c2.chat_update_stats solicited msg now
          let (conn2, fulfill_opt) := c3.connection.fulfill_request msg
          let c4 := { c3 with connection := conn2 }
          match fulfill_opt with
          | none => (c4, .processed none reply_sent)
          | some m =>
              if consume_unsolicited then (c4, .processed none reply_sent)
              else (c4, .processed (some m) reply_sent)

/-- The drain loop of `chat`: `fuel` is the inbox length snapshot taken at
entry; each round pops at most one message. -/
def Conversation.chat_loop (local_peer : LocalPeer)
    (burnchain_view : BurnchainView) (now : Nat) :
    Nat → Conversation → List StacksMessage → List StacksMessage →
    Conversation × Except NetError (List StacksMessage × List StacksMessage)
  | 0, c, unsolicited, responses => (c, .ok (unsolicited, responses))
  | n + 1, c, unsolicited, responses =>
      match c.connection.inbox with
      | [] => Conversation.chat_loop local_peer burnchain_view now n c unsolicited responses
      | msg :: rest =>
          let c1 := { c with connection := { c.connection with inbox := rest } }
          match c1.chat_step local_peer burnchain_view now msg with
          | (c2, .skip) =>
              Conversation.chat_loop local_peer burnchain_view now n c2 unsolicited responses
          | (c2, .fatal e) => (c2, .error e)
          | (c2, .processed forward reply) =>
              Conversation.chat_loop local_peer burnchain_view now n c2
                (unsolicited ++ forward.toList) (responses ++ reply.toList)

/-- `Conversation::chat` (chat.rs lines 677-892): drain the inbox snapshot,
returning the unsolicited messages to forward upward and the signed replies
queued for sending. -/
def Conversation.chat (c : Conversation) (local_peer : LocalPeer)
    (burnchain_view : BurnchainView) (now : Nat) :
    Conversation × Except NetError (List StacksMessage × List StacksMessage) :=
  Conversation.chat_loop local_peer burnchain_view now
    c.connection.inbox.length c [] []

/-- Modelled from the spec: a neighbor record of the peer database
(`net/mod.rs` and `net/db.rs` are not in src); only the fields the embedded
p2p code reads. -/
structure Neighbor where
  addr : NeighborKey
  public_key : Nat
  expire_block : Nat
deriving DecidableEq, Repr

/-- `NeighborKey::from_socketaddr`. -/
def NeighborKey.from_socketaddr (peer_version network_id : Nat)
    (a : SocketAddr) : NeighborKey :=
  { peer_version := peer_version
    network_id := network_id
    addrbytes := PeerAddress.from_socketaddr a
    port := a.port }

/-- Modelled from the spec: the peer database (`net/db.rs` is not in src),
reduced to its record list. -/
structure PeerDB where
  peers : List Neighbor
deriving DecidableEq, Repr

/-- Modelled from the spec: `PeerDB::get_peer` looks a record up by network
id, address bytes and port. -/
def PeerDB.get_peer (db : PeerDB) (network_id : Nat) (addrbytes : PeerAddress)
    (port : Nat) : Option Neighbor :=
  db.peers.find? (fun n =>
    n.addr.network_id == network_id && n.addr.addrbytes == addrbytes &&
      n.addr.port == port)

/-- The slice of `PeerNetwork` (p2p.rs) that `register` touches.
`network_present` models whether `self.network` is `Some`; sockets are
reduced to their event ids. -/
structure PeerNetwork where
  local_peer : LocalPeer
  peerdb : PeerDB
  burnchain : Burnchain
  chain_view : BurnchainView
  peers : List (Nat × Conversation)
  sockets : List Nat
  events : List (NeighborKey × Nat)
  connection_opts : ConnectionOptions
  network_present : Bool
deriving DecidableEq, Repr

/-- `PeerNetwork::lookup_peer` (p2p.rs lines 592-609): hand back the stored
record only when its `expire_block` lies strictly below the given height. -/
def PeerNetwork.lookup_peer (pn : PeerNetwork) (cur_block_height : Nat)
    (peer_addr : SocketAddr) : Except NetError (Option Neighbor) :=
  let addrbytes := PeerAddress.from_socketaddr peer_addr
  match pn.peerdb.get_peer pn.burnchain.network_id addrbytes peer_addr.port with
  | none => .ok none
  | some neighbor =>
      if neighbor.expire_block < cur_block_height then .ok (some neighbor)
      else .ok none

/-- `PeerNetwork::is_registered`. -/
def PeerNetwork.is_registered (pn : PeerNetwork) (neighbor_key : NeighborKey) :
    Bool :=
  (pn.events.lookup neighbor_key).isSome

/-- `PeerNetwork::count_outbound_conversations`. -/
def count_outbound_conversations (peers : List (Nat × Conversation)) : Nat :=
  (peers.filter (fun p => p.2.stats.outbound)).length

/-- `PeerNetwork::can_register` (p2p.rs lines 619-634). -/
def PeerNetwork.can_register (pn : PeerNetwork) (neighbor_key : NeighborKey)
    (outbound : Bool) : Except NetError Unit :=
  if pn.is_registered neighbor_key then .error .AlreadyConnected
  else if ¬ outbound ∧
      pn.peers.length - count_outbound_conversations pn.peers ≥
        pn.connection_opts.num_clients then
    .error .TooManyPeers
  else .ok ()

/-- `PeerNetwork::register` (p2p.rs lines 639-682).  The socket is reduced
to its event id and peer address (`socket.peer_addr()` always succeeds in
the model); `now` feeds `from_peer_reset` on the re-registration path. -/
def PeerNetwork.register (pn : PeerNetwork) (event_id : Nat)
    (client_addr : SocketAddr) (outbound : Bool)
    (existing_convo : Option Conversation) (now : Nat) :
    Except NetError PeerNetwork := do
  let neighbor_opt ← pn.lookup_peer pn.chain_view.burn_block_height client_addr
  let (pubkey_opt, neighbor_key) := match neighbor_opt with
    | some neighbor => (some neighbor.public_key, neighbor.addr)
    | none => (none, NeighborKey.from_socketaddr pn.burnchain.peer_version
        pn.burnchain.network_id client_addr)
  pn.can_register neighbor_key outbound
  if ¬ pn.network_present then
    throw .NotConnected
  let convo := match existing_convo with
    | none =>
        (Conversation.new pn.burnchain client_addr pn.connection_opts outbound
          event_id).set_public_key pubkey_opt
    | some convo =>
        (Conversation.from_peer_reset convo pn.connection_opts
          now).set_public_key pubkey_opt
  return { pn with
    sockets := event_id :: pn.sockets
    peers := (event_id, convo) :: pn.peers
    events := (neighbor_key, event_id) :: pn.events }

/-! Concrete fixtures, mirroring the values of the chat.rs test module:
`stable_confirmations = 7`, `burn_block_height = 12348`,
`burn_stable_block_height = 12341`. -/

/-- Test burnchain configuration. -/
def exBurnchain : Burnchain :=
  { peer_version := 0x18000000
    network_id := 0x9abcdef0
    chain_name := "bitcoin"
    network_name := "testnet"
    working_dir := "/nope"
    consensus_hash_lifetime := 24
    stable_confirmations := 7
    first_block_height := 12300 }

/-- Test burnchain view. -/
def exView : BurnchainView :=
  { burn_block_height := 12348
    burn_consensus_hash := ⟨0x1111⟩
    burn_stable_block_height := 12341
    burn_stable_consensus_hash := ⟨0x2222⟩
    last_consensus_hashes := [(12348, ⟨0x1111⟩), (12341, ⟨0x2222⟩)] }

/-- Test local peer. -/
def exLocalPeer : LocalPeer :=
  { network_id := 0x9abcdef0
    addrbytes := 1
    port := 8080
    services := 3
    private_key := 77
    private_key_expire := 12350
    data_url := "http://peer1.com" }

/-- A fresh outbound test conversation. -/
def exConv : Conversation :=
  Conversation.new exBurnchain ⟨2, 8081⟩ ⟨3600, 10⟩ true 0

/-- A preamble consistent with `exView`. -/
def exPreamble (seq : Nat) (sig : Option Nat) : Preamble :=
  { peer_version := 0x18000000
    network_id := 0x9abcdef0
    seq := seq
    burn_block_height := 12348
    burn_consensus_hash := ⟨0x1111⟩
    burn_stable_block_height := 12341
    burn_stable_consensus_hash := ⟨0x2222⟩
    additional_data := 0
    signature := sig
    payload_len := 0 }

/-- A ping with a valid preamble. -/
def exPing (seq : Nat) (sig : Option Nat) : StacksMessage :=
  { preamble := exPreamble seq sig, payload := .ping ⟨42⟩ }

/-- A pong with a valid preamble. -/
def exPong (seq : Nat) (sig : Option Nat) : StacksMessage :=
  { preamble := exPreamble seq sig, payload := .pong ⟨42⟩ }

/-- C2 counterexample: from internal counter `2^32 - 2`, `sign_message`
emits `2^32 - 2` and then `0`; the successor modulo `2^32` would be
`2^32 - 1`, which is never assigned, so successive sequence numbers do not
always increase by exactly 1 modulo `2^32`. -/
theorem C2_counterexample :
    ((({ exConv with seq := 2 ^ 32 - 2 } : Conversation).sign_message exView 77
        .getNeighbors).1.preamble.seq = 2 ^ 32 - 2) ∧
    (((({ exConv with seq := 2 ^ 32 - 2 } : Conversation).sign_message exView 77
        .getNeighbors).2.sign_message exView 77 .getNeighbors).1.preamble.seq = 0) ∧
    ((2 ^ 32 - 2 + 1) % 2 ^ 32 ≠ 0) :=
  ⟨by decide, by decide, by decide⟩

/-- C2 (amended): successive sequence numbers assigned by `sign_message`
increase by exactly 1 modulo `2^32 - 1`: the counter is reset one step
before `u32::MAX`, so `2^32 - 1` is never assigned and after the wrap the
sequence resets to 0. -/
theorem C2_seq_increment (c : Conversation) (v₁ v₂ : BurnchainView)
    (k₁ k₂ : Nat) (p₁ p₂ : StacksMessageType) (h : c.seq < 2 ^ 32) :
    ((c.sign_message v₁ k₁ p₁).2.sign_message v₂ k₂ p₂).1.preamble.seq =
      (((c.sign_message v₁ k₁ p₁).1.preamble.seq + 1) % (2 ^ 32 - 1)) := by
  unfold Conversation.sign_message Conversation.next_seq StacksMessage.sign
    StacksMessage.from_chain_view
  by_cases h1 : c.seq = 4294967295
  · simp [h1]
  · by_cases h2 : c.seq = 4294967294
    · simp [h1, h2]
    · have h3 : ¬ (c.seq + 1 = 4294967295) := by omega
      simp [h1, h3]
      rw [Nat.mod_eq_of_lt (by omega)]

/-- C2 witness: the amended increment law evaluated at the fresh test
conversation. -/
theorem C2_seq_increment_witness :
    ((exConv.sign_message exView 77 .getNeighbors).2.sign_message exView 77
        .getNeighbors).1.preamble.seq =
      (((exConv.sign_message exView 77 .getNeighbors).1.preamble.seq + 1) %
        (2 ^ 32 - 1)) :=
  C2_seq_increment exConv exView exView 77 77 .getNeighbors .getNeighbors
    (by decide)


/-- On an unauthenticated conversation, a processable message that is none
of the four pre-handshake payloads is answered with the signed
`Nack(HandshakeRequired)` and never forwarded (step-level lemma). -/
theorem chat_step_nack_aux (c : Conversation) (lp : LocalPeer)
    (v : BurnchainView) (now : Nat) (m : StacksMessage)
    (hkey : c.connection.public_key = none)
    (hpre : c.is_preamble_valid m v = .ok true)
    (hpayload : match m.payload with
      | .handshake _ => False
      | .handshakeAccept _ => False
      | .handshakeReject => False
      | .nack _ => False
      | _ => True) :
    ∃ c2, c.chat_step lp v now m = (c2, .processed none
      (some ((StacksMessage.from_chain_view c.burnchain.peer_version
        c.burnchain.network_id v
        (.nack ⟨NackErrorCodes.HandshakeRequired⟩)).sign m.preamble.seq
        lp.private_key))) := by
  have hk : c.connection.has_public_key = false := by
    simp [ConnectionP2P.has_public_key, hkey]
  cases hp : m.payload <;> simp only [hp] at hpayload <;> try exact hpayload.elim
  all_goals
    simp only [Conversation.chat_step, hpre, Conversation.chat_dispatch, hk,
      Bool.false_eq_true, if_false, hp, ConnectionP2P.fulfill_request]
  all_goals split <;> exact ⟨_, rfl⟩

/-- C3: on a conversation with no bound public key, an inbound message whose
payload is none of Handshake, HandshakeAccept, HandshakeReject or Nack (a
Ping, for instance) makes the chat step produce a signed
`Nack(HandshakeRequired)` reply carrying the inbound sequence number, and
the message is not placed on the returned unsolicited list. -/
theorem C3_nack_before_handshake (c : Conversation) (lp : LocalPeer)
    (v : BurnchainView) (now : Nat) (m : StacksMessage)
    (hkey : c.connection.public_key = none)
    (hinbox : c.connection.inbox = [m])
    (hpre : c.is_preamble_valid m v = .ok true)
    (hpayload : match m.payload with
      | .handshake _ => False
      | .handshakeAccept _ => False
      | .handshakeReject => False
      | .nack _ => False
      | _ => True) :
    (c.chat lp v now).2 = .ok ([],
      [(StacksMessage.from_chain_view c.burnchain.peer_version
          c.burnchain.network_id v
          (.nack ⟨NackErrorCodes.HandshakeRequired⟩)).sign m.preamble.seq
          lp.private_key]) := by
  obtain ⟨c2, hstep⟩ := chat_step_nack_aux
    ({ c with connection := { c.connection with inbox := [] } }) lp v now m
    hkey hpre hpayload
  unfold Conversation.chat
  simp only [hinbox, List.length_cons, List.length_nil]
  simp only [Conversation.chat_loop, hinbox, hstep, Option.toList,
    List.nil_append]

/-- An unauthenticated test conversation holding one pending ping. -/
def exConvUnauth : Conversation :=
  { exConv with connection :=
      { inbox := [exPing 5 (some 1)], outbox := [], requests := [],
        public_key := none } }

/-- C3 witness: the ping-before-handshake scenario evaluated concretely. -/
theorem C3_nack_before_handshake_witness :
    (exConvUnauth.chat exLocalPeer exView 1000).2 = .ok ([],
      [(StacksMessage.from_chain_view exConvUnauth.burnchain.peer_version
          exConvUnauth.burnchain.network_id exView
          (.nack ⟨NackErrorCodes.HandshakeRequired⟩)).sign
          (exPing 5 (some 1)).preamble.seq exLocalPeer.private_key]) :=
  C3_nack_before_handshake exConvUnauth exLocalPeer exView 1000
    (exPing 5 (some 1)) rfl rfl rfl trivial

/-- C6: when the next inbox message has an invalid preamble, `chat` counts
exactly one error, records one unsuccessful healthpoint, and returns
`Err(InvalidMessage)` at once: the messages queued behind it are left
unprocessed (they die with the connection) and nothing is sent or
forwarded. -/
theorem C6_invalid_preamble_aborts (c : Conversation) (lp : LocalPeer)
    (v : BurnchainView) (now : Nat) (m : StacksMessage)
    (rest : List StacksMessage)
    (hinbox : c.connection.inbox = m :: rest)
    (hpre : c.is_preamble_valid m v = .error .InvalidMessage) :
    c.chat lp v now =
      ({ c with
          connection := { c.connection with inbox := rest }
          stats := (( { c.stats with msgs_err := c.stats.msgs_err + 1 }
            : NeighborStats).add_healthpoint false now) },
        .error .InvalidMessage) := by
  have hpre1 : ({ c with connection := { c.connection with inbox := rest } }
      : Conversation).is_preamble_valid m v = .error .InvalidMessage := hpre
  unfold Conversation.chat
  simp only [hinbox, List.length_cons]
  simp only [Conversation.chat_loop, hinbox, Conversation.chat_step, hpre1]

/-- A message whose preamble carries a foreign network id. -/
def exBadMsg : StacksMessage :=
  { preamble := { exPreamble 9 (some 1) with network_id := 0xdeadbeef }
    payload := .ping ⟨7⟩ }

/-- A test conversation whose inbox holds the invalid message with a valid
ping queued behind it. -/
def exConvC6 : Conversation :=
  { exConv with connection :=
      { inbox := [exBadMsg, exPing 5 (some 1)], outbox := [], requests := [],
        public_key := none } }

/-- C6 witness: the abort behaviour evaluated on the concrete queue. -/
theorem C6_invalid_preamble_aborts_witness :
    exConvC6.chat exLocalPeer exView 1000 =
      ({ exConvC6 with
          connection := { exConvC6.connection with inbox := [exPing 5 (some 1)] }
          stats := (( { exConvC6.stats with
              msgs_err := exConvC6.stats.msgs_err + 1 }
            : NeighborStats).add_healthpoint false 1000) },
        .error .InvalidMessage) :=
  C6_invalid_preamble_aborts exConvC6 exLocalPeer exView 1000 exBadMsg
    [exPing 5 (some 1)] rfl rfl

/-- Statistics with a full window: 16 fresh successes and 16 failures. -/
def exStatsFull : NeighborStats :=
  { NeighborStats.new true with
      healthpoints :=
        List.replicate 16 ⟨true, 1000⟩ ++ List.replicate 16 ⟨false, 1000⟩ }

/-- C7 counterexample: with a full window of 32 healthpoints of which
exactly 16 are fresh successes, `get_health_score` returns exactly `0.5`
even though the window is not short, so `0.5` is not equivalent to having
fewer than `NUM_HEALTH_POINTS` healthpoints. -/
theorem C7_counterexample :
    ¬ (exStatsFull.get_health_score 1000 = 1 / 2 ↔
        exStatsFull.healthpoints.length < NUM_HEALTH_POINTS) := by
  norm_num [NeighborStats.get_health_score, exStatsFull, NeighborStats.new,
    NUM_HEALTH_POINTS, HEALTH_POINT_LIFETIME, List.replicate, List.countP,
    List.countP.go]

/-- C7 (amended): `get_health_score` returns `0.5` whenever fewer than
`NUM_HEALTH_POINTS` healthpoints have been recorded; with a full window it
returns the number of healthpoints that are successful and within
`HEALTH_POINT_LIFETIME` of now, divided by the total — a quotient that can
itself equal `0.5`, so `0.5` does not single out the short-window case. -/
theorem C7_health_score (s : NeighborStats) (now : Nat) :
    s.get_health_score now =
      if s.healthpoints.length < NUM_HEALTH_POINTS then (1 : ℚ) / 2
      else ((s.healthpoints.filter (fun hp => hp.success &&
          decide (now < hp.time + HEALTH_POINT_LIFETIME))).length : ℚ) /
        (s.healthpoints.length : ℚ) := by
  unfold NeighborStats.get_health_score
  rw [List.countP_eq_length_filter]

/-- The eviction loop drops exactly the front overhang. -/
theorem trim_healthpoints_eq_drop (l : List NeighborHealthPoint) :
    trim_healthpoints l = l.drop (l.length - NUM_HEALTH_POINTS) := by
  induction l with
  | nil => rfl
  | cons hp t ih =>
      unfold trim_healthpoints
      split
      next h =>
        rw [ih]
        have h32 : t.length ≥ NUM_HEALTH_POINTS := by
          simp only [List.length_cons] at h
          omega
        rw [show (hp :: t).length - NUM_HEALTH_POINTS =
            (t.length - NUM_HEALTH_POINTS) + 1 from by
          simp only [List.length_cons]
          omega]
        rfl
      next h =>
        have h32 : (hp :: t).length - NUM_HEALTH_POINTS = 0 := by omega
        rw [h32]
        rfl

/-- C8: `add_healthpoint` appends the new sample at the back and evicts
from the front exactly until the bound holds, so the healthpoint window
never exceeds `NUM_HEALTH_POINTS` entries. -/
theorem C8_healthpoint_bound (s : NeighborStats) (success : Bool) (now : Nat) :
    ((s.add_healthpoint success now).healthpoints =
      (s.healthpoints ++
        [({ success := success, time := now } : NeighborHealthPoint)]).drop
        (s.healthpoints.length + 1 - NUM_HEALTH_POINTS)) ∧
    (s.add_healthpoint success now).healthpoints.length ≤ NUM_HEALTH_POINTS := by
  unfold NeighborStats.add_healthpoint
  constructor
  · rw [trim_healthpoints_eq_drop]
    simp
  · rw [trim_healthpoints_eq_drop]
    simp only [List.length_drop, List.length_append, List.length_cons,
      List.length_nil]
    omega

/-- C5: `validate_handshake`, characterised branch for branch in the
claim's vocabulary and with the source's check order: unverifiable
signature with no bound key gives `Err(InvalidMessage)`; an address
mismatch on an outbound authenticated conversation gives
`Err(InvalidHandshake)`; an undecodable key gives `Err(InvalidMessage)`; an
`expire_block_height` not strictly above the view's height gives
`Err(InvalidHandshake)` (stale key); a key equal to our own gives
`Err(InvalidHandshake)` (no self-handshake); otherwise the handshake is
accepted. -/
theorem C5_validate_handshake (c : Conversation) (lp : LocalPeer)
    (v : BurnchainView) (m : StacksMessage) (d : HandshakeData)
    (hpayload : m.payload = .handshake d) :
    c.validate_handshake lp v m =
      (if c.connection.get_public_key = none ∧
          m.verify_secp256k1 d.node_public_key = false then
        .error .InvalidMessage
      else if c.connection.get_public_key ≠ none ∧ c.stats.outbound ∧
          (c.peer_addrbytes ≠ d.addrbytes ∨ c.peer_port ≠ d.port) then
        .error .InvalidHandshake
      else if d.node_public_key.wellFormed = false then
        .error .InvalidMessage
      else if d.expire_block_height ≤ v.burn_block_height then
        .error .InvalidHandshake
      else if d.node_public_key =
          StacksPublicKeyBuffer.from_public_key (pubOf lp.private_key) then
        .error .InvalidHandshake
      else .ok ()) := by
  unfold Conversation.validate_handshake StacksPublicKeyBuffer.to_public_key
  rw [hpayload]
  cases hk : c.connection.get_public_key <;>
    simp only [hk, pure, bind, Except.bind, Except.pure] <;>
    split_ifs <;>
    simp_all

/-- A well-formed handshake advertising key 88, not expired, not ours. -/
def exHsData : HandshakeData :=
  { addrbytes := 1
    port := 8080
    services := 3
    node_public_key := ⟨88, true⟩
    expire_block_height := 12400
    data_url := "http://peer2.com" }

/-- The handshake message, signed by the advertised key. -/
def exHsMsg : StacksMessage :=
  { preamble := exPreamble 3 (some 88), payload := .handshake exHsData }

/-- C5 witness: the characterisation evaluated on a concrete acceptable
handshake. -/
theorem C5_validate_handshake_witness :
    exConvUnauth.validate_handshake exLocalPeer exView exHsMsg = .ok () := by
  rw [C5_validate_handshake exConvUnauth exLocalPeer exView exHsMsg exHsData rfl]
  rfl

/-- Processing any payload other than a Handshake or a HandshakeAccept
leaves the bound public key untouched (step-level lemma). -/
theorem chat_step_key_invariant (c : Conversation) (lp : LocalPeer)
    (v : BurnchainView) (now : Nat) (m : StacksMessage)
    (hpayload : match m.payload with
      | .handshake _ => False
      | .handshakeAccept _ => False
      | _ => True) :
    (c.chat_step lp v now m).1.connection.public_key =
      c.connection.public_key := by
  cases hp : m.payload <;> simp only [hp] at hpayload <;> try exact hpayload.elim
  all_goals
    cases hpre : c.is_preamble_valid m v with
    | error e =>
        cases e <;> simp [Conversation.chat_step, hpre]
    | ok b =>
        cases b
        · simp [Conversation.chat_step, hpre]
        · by_cases hkb : c.connection.public_key.isSome = true <;>
          by_cases hf : m.preamble.seq ∈ c.connection.requests <;>
          simp [Conversation.chat_step, hpre, Conversation.chat_dispatch, hp,
            hkb, hf, Conversation.chat_update_stats,
            Conversation.relay_signed_message, Conversation.handle_ping,
            ConnectionP2P.fulfill_request, ConnectionP2P.has_public_key,
            ConnectionP2P.is_solicited]

/-- A handshake-accept whose nested handshake advertises a different key. -/
def exAccData : HandshakeAcceptData :=
  { handshake :=
      { addrbytes := 2
        port := 8081
        services := 3
        node_public_key := ⟨20, true⟩
        expire_block_height := 12400
        data_url := "http://peer2.com" }
    heartbeat_interval := 30 }

/-- The accept message, signed by the currently bound key 10. -/
def exAccMsg : StacksMessage :=
  { preamble := exPreamble 4 (some 10), payload := .handshakeAccept exAccData }

/-- An authenticated test conversation bound to key 10. -/
def exConvAuth10 : Conversation :=
  { exConv with connection :=
      { inbox := [], outbox := [], requests := [], public_key := some 10 } }

/-- C4 counterexample: a conversation bound to key 10 processes a
`HandshakeAccept` — not a `Handshake` — whose nested data advertises key
20, and the bound key is replaced: `handle_handshake_accept` rebinds the
key with no handshake and no validation, so a Handshake is not the only
operation that replaces an already-bound key. -/
theorem C4_counterexample :
    exConvAuth10.connection.public_key = some 10 ∧
    verify_pub exAccMsg 10 = true ∧
    (match exAccMsg.payload with
      | .handshake _ => false
      | _ => true) = true ∧
    (exConvAuth10.chat_step exLocalPeer exView 1000
        exAccMsg).1.connection.public_key = some 20 :=
  ⟨rfl, rfl, rfl, by decide⟩

/-- C4 (amended): in a conversation whose bound key is `some k`, processing
a message changes the bound key only if the message is a `Handshake` or a
`HandshakeAccept`; in either case the connection layer (modelled from the
spec) had verified the message against the currently stored key. -/
theorem C4_key_rebinding (c : Conversation) (lp : LocalPeer)
    (v : BurnchainView) (now : Nat) (m : StacksMessage) (k : Nat)
    (hkey : c.connection.public_key = some k)
    (hverify : verify_pub m k = true)
    (hchange : (c.chat_step lp v now m).1.connection.public_key ≠ some k) :
    ((∃ d, m.payload = .handshake d) ∨ (∃ d, m.payload = .handshakeAccept d)) ∧
      verify_pub m k = true := by
  refine ⟨?_, hverify⟩
  cases hp : m.payload
  case handshake d => exact .inl ⟨d, rfl⟩
  case handshakeAccept d => exact .inr ⟨d, rfl⟩
  all_goals
    exact absurd ((chat_step_key_invariant c lp v now m
      (by rw [hp]; trivial)).trans hkey) hchange

/-- C4 witness: the rebinding law applied to the concrete accept-driven
re-key. -/
theorem C4_key_rebinding_witness :
    ((∃ d, exAccMsg.payload = .handshake d) ∨
      (∃ d, exAccMsg.payload = .handshakeAccept d)) ∧
      verify_pub exAccMsg 10 = true :=
  C4_key_rebinding exConvAuth10 exLocalPeer exView 1000 exAccMsg 10 rfl rfl
    (by decide)

/-- Equality of the receive-side statistics fields (the fields the claim's
stats-update step may touch). -/
def rx_stats_eq (a b : NeighborStats) : Prop :=
  a.msgs_rx = b.msgs_rx ∧ a.msgs_rx_unsolicited = b.msgs_rx_unsolicited ∧
  a.msg_rx_counts = b.msg_rx_counts ∧ a.healthpoints = b.healthpoints ∧
  a.last_recv_time = b.last_recv_time ∧
  a.last_contact_time = b.last_contact_time ∧
  a.first_contact_time = b.first_contact_time

theorem rx_stats_eq_refl (a : NeighborStats) : rx_stats_eq a a :=
  ⟨rfl, rfl, rfl, rfl, rfl, rfl, rfl⟩

/-- `handle_handshake` never touches the statistics. -/
theorem handle_handshake_stats (c : Conversation) (lp : LocalPeer)
    (v : BurnchainView) (m : StacksMessage) :
    (c.handle_handshake lp v m).1.stats = c.stats := by
  unfold Conversation.handle_handshake Conversation.update_from_handshake_data
  repeat' split
  all_goals try rfl
  all_goals
    rename_i heq
    split at heq
    all_goals
      first
        | (injection heq with heq2
           subst heq2
           rfl)
        | injection heq

/-- `handle_handshake_accept` touches only `last_handshake_time` among the
statistics. -/
theorem handle_handshake_accept_stats (c : Conversation) (p : Preamble)
    (d : HandshakeAcceptData) (now : Nat) :
    rx_stats_eq (c.handle_handshake_accept p d now).1.stats c.stats := by
  unfold Conversation.handle_handshake_accept
    Conversation.update_from_handshake_data
  repeat' split
  all_goals try exact rx_stats_eq_refl _
  all_goals
    rename_i heq
    split at heq
    all_goals
      first
        | (injection heq with heq2
           subst heq2
           simp [rx_stats_eq])
        | injection heq

/-- The `solicited` flag computed by the dispatch: constantly true on the
authenticated branch, recomputed from the request table otherwise. -/
theorem chat_dispatch_solicited (c : Conversation) (lp : LocalPeer)
    (v : BurnchainView) (now : Nat) (m : StacksMessage) :
    (c.chat_dispatch lp v now m).1 =
      (if c.connection.has_public_key then true
       else c.connection.is_solicited m) := by
  unfold Conversation.chat_dispatch
  by_cases hkb : c.connection.has_public_key = true <;>
    cases hp : m.payload <;>
    simp [hkb, hp] <;>
    (repeat' split) <;>
    simp_all

/-- The dispatch preserves the receive-side statistics. -/
theorem chat_dispatch_rx_stats (c : Conversation) (lp : LocalPeer)
    (v : BurnchainView) (now : Nat) (m : StacksMessage) :
    rx_stats_eq ((c.chat_dispatch lp v now m).2.2.1).stats c.stats := by
  unfold Conversation.chat_dispatch
  by_cases hkb : c.connection.has_public_key = true <;>
    cases hp : m.payload <;>
    simp [hkb, hp] <;>
    try split
  all_goals
    first
    | exact rx_stats_eq_refl _
    | (rw [handle_handshake_stats]; exact rx_stats_eq_refl _)
    | exact handle_handshake_accept_stats ..

theorem rx_stats_eq_trans (a b c : NeighborStats) (h1 : rx_stats_eq a b)
    (h2 : rx_stats_eq b c) : rx_stats_eq a c := by
  obtain ⟨x1, x2, x3, x4, x5, x6, x7⟩ := h1
  obtain ⟨y1, y2, y3, y4, y5, y6, y7⟩ := h2
  exact ⟨x1.trans y1, x2.trans y2, x3.trans y3, x4.trans y4, x5.trans y5,
    x6.trans y6, x7.trans y7⟩

/-- Relaying a reply touches only `msgs_tx` among the statistics. -/
theorem relay_rx_stats (c : Conversation) (msg : StacksMessage) :
    rx_stats_eq (c.relay_signed_message msg).stats c.stats :=
  ⟨rfl, rfl, rfl, rfl, rfl, rfl, rfl⟩

/-- The solicited branch of the statistics update, field by field. -/
theorem chat_update_stats_sol (c : Conversation) (m : StacksMessage)
    (now : Nat) :
    ((c.chat_update_stats true m now).stats.msgs_rx = c.stats.msgs_rx + 1) ∧
    ((c.chat_update_stats true m now).stats.msg_rx_counts.lookup
        m.payload.get_message_id =
      some ((c.stats.msg_rx_counts.lookup m.payload.get_message_id).getD 0 + 1)) ∧
    ((c.chat_update_stats true m now).stats.last_recv_time = now) ∧
    ((c.chat_update_stats true m now).stats.last_contact_time = now) ∧
    ((c.chat_update_stats true m now).stats.healthpoints =
      trim_healthpoints (c.stats.healthpoints ++
        [({ success := true, time := now } : NeighborHealthPoint)])) ∧
    ((c.chat_update_stats true m now).stats.first_contact_time =
      if c.stats.first_contact_time = 0 then now
      else c.stats.first_contact_time) ∧
    ((c.chat_update_stats true m now).stats.msgs_rx_unsolicited =
      c.stats.msgs_rx_unsolicited) := by
  unfold Conversation.chat_update_stats NeighborStats.add_healthpoint
  cases hl : c.stats.msg_rx_counts.lookup m.payload.get_message_id <;>
    by_cases hf : c.stats.first_contact_time = 0 <;>
    simp [hl, hf, List.lookup]

/-- The unsolicited branch of the statistics update. -/
theorem chat_update_stats_unsol (c : Conversation) (m : StacksMessage)
    (now : Nat) :
    (c.chat_update_stats false m now).stats =
      { c.stats with msgs_rx_unsolicited := c.stats.msgs_rx_unsolicited + 1 } :=
  rfl

/-- C9 (amended): the `solicited` flag driving the statistics update starts
true and is recomputed from the request table only when no public key is
bound — on an authenticated conversation every processed message counts as
solicited, whether or not its sequence number matches an outstanding
request.  When the flag is true, processing increments `msgs_rx`, bumps the
receive count of the message kind, sets `last_recv_time` and
`last_contact_time`, appends a successful healthpoint and sets
`first_contact_time` if it was zero; when it is false only
`msgs_rx_unsolicited` is incremented among the receive-side statistics. -/
theorem C9_stats_update (c : Conversation) (lp : LocalPeer)
    (v : BurnchainView) (now : Nat) (m : StacksMessage) (c2 : Conversation)
    (fwd reply : Option StacksMessage)
    (hstep : c.chat_step lp v now m = (c2, .processed fwd reply)) :
    if (if c.connection.has_public_key then true
        else c.connection.is_solicited m) then
      c2.stats.msgs_rx = c.stats.msgs_rx + 1 ∧
      c2.stats.msg_rx_counts.lookup m.payload.get_message_id =
        some ((c.stats.msg_rx_counts.lookup m.payload.get_message_id).getD 0 + 1) ∧
      c2.stats.last_recv_time = now ∧
      c2.stats.last_contact_time = now ∧
      c2.stats.healthpoints = trim_healthpoints (c.stats.healthpoints ++
        [({ success := true, time := now } : NeighborHealthPoint)]) ∧
      c2.stats.first_contact_time =
        (if c.stats.first_contact_time = 0 then now
         else c.stats.first_contact_time) ∧
      c2.stats.msgs_rx_unsolicited = c.stats.msgs_rx_unsolicited
    else
      c2.stats.msgs_rx_unsolicited = c.stats.msgs_rx_unsolicited + 1 ∧
      c2.stats.msgs_rx = c.stats.msgs_rx ∧
      c2.stats.msg_rx_counts = c.stats.msg_rx_counts ∧
      c2.stats.healthpoints = c.stats.healthpoints ∧
      c2.stats.last_recv_time = c.stats.last_recv_time ∧
      c2.stats.last_contact_time = c.stats.last_contact_time ∧
      c2.stats.first_contact_time = c.stats.first_contact_time := by
  unfold Conversation.chat_step at hstep
  cases hpre : c.is_preamble_valid m v with
  | error e =>
      rw [hpre] at hstep
      cases e <;> simp at hstep
  | ok b =>
      rw [hpre] at hstep
      cases b
      · simp at hstep
      · have hsol := chat_dispatch_solicited c lp v now m
        have hst := chat_dispatch_rx_stats c lp v now m
        rcases hd : c.chat_dispatch lp v now m with ⟨sol, consume, c1, rres⟩
        rw [hd] at hstep hsol hst
        simp only at hstep hsol hst
        rw [← hsol]
        have key : ∀ (X : Conversation), rx_stats_eq X.stats c.stats →
            c2.stats = (X.chat_update_stats sol m now).stats →
            (if sol then
              c2.stats.msgs_rx = c.stats.msgs_rx + 1 ∧
              c2.stats.msg_rx_counts.lookup m.payload.get_message_id =
                some ((c.stats.msg_rx_counts.lookup
                  m.payload.get_message_id).getD 0 + 1) ∧
              c2.stats.last_recv_time = now ∧
              c2.stats.last_contact_time = now ∧
              c2.stats.healthpoints =
                trim_healthpoints (c.stats.healthpoints ++
                  [({ success := true, time := now } : NeighborHealthPoint)]) ∧
              c2.stats.first_contact_time =
                (if c.stats.first_contact_time = 0 then now
                 else c.stats.first_contact_time) ∧
              c2.stats.msgs_rx_unsolicited = c.stats.msgs_rx_unsolicited
            else
              c2.stats.msgs_rx_unsolicited = c.stats.msgs_rx_unsolicited + 1 ∧
              c2.stats.msgs_rx = c.stats.msgs_rx ∧
              c2.stats.msg_rx_counts = c.stats.msg_rx_counts ∧
              c2.stats.healthpoints = c.stats.healthpoints ∧
              c2.stats.last_recv_time = c.stats.last_recv_time ∧
              c2.stats.last_contact_time = c.stats.last_contact_time ∧
              c2.stats.first_contact_time = c.stats.first_contact_time) := by
          intro X hX hc2
          obtain ⟨e1, e2, e3, e4, e5, e6, e7⟩ := hX
          cases sol
          · rw [if_neg (by simp)]
            rw [hc2, chat_update_stats_unsol]
            exact ⟨by simp [e2], by simp [e1], by simp [e3], by simp [e4],
              by simp [e5], by simp [e6], by simp [e7]⟩
          · rw [if_pos rfl]
            obtain ⟨u1, u2, u3, u4, u5, u6, u7⟩ := chat_update_stats_sol X m now
            rw [hc2]
            refine ⟨?_, ?_, u3, u4, ?_, ?_, ?_⟩
            · rw [u1, e1]
            · rw [u2, e3]
            · rw [u5, e4]
            · rw [u6, e7]
            · rw [u7, e2]
        cases rres with
        | error e => simp at hstep
        | ok reply_opt =>
            cases reply_opt with
            | none =>
                simp only [ConnectionP2P.fulfill_request] at hstep
                split at hstep
                all_goals try split at hstep
                all_goals
                  injection hstep with hc2 hres
                  refine key c1 hst ?_
                  rw [← hc2]
            | some r =>
                simp only [ConnectionP2P.fulfill_request] at hstep
                split at hstep
                all_goals try split at hstep
                all_goals
                  injection hstep with hc2 hres
                  refine key (c1.relay_signed_message
                    (r.sign m.preamble.seq lp.private_key))
                    (rx_stats_eq_trans _ _ _ (relay_rx_stats c1 _) hst) ?_
                  rw [← hc2]

/-- An authenticated test conversation (key 99) with a pending pong whose
sequence number matches no outstanding request. -/
def exConvAuth99 : Conversation :=
  { exConv with connection :=
      { inbox := [exPong 5 (some 99)], outbox := [], requests := [],
        public_key := some 99 } }

/-- C9 counterexample: on an authenticated conversation, a message whose
sequence number matches no outstanding request (unsolicited by the claim's
definition) still bumps `msgs_rx` and leaves `msgs_rx_unsolicited`
untouched: the code recomputes the solicited flag only on the
unauthenticated branch. -/
theorem C9_counterexample :
    exConvAuth99.connection.is_solicited (exPong 5 (some 99)) = false ∧
    (exConvAuth99.chat exLocalPeer exView 1000).1.stats.msgs_rx_unsolicited =
      exConvAuth99.stats.msgs_rx_unsolicited ∧
    (exConvAuth99.chat exLocalPeer exView 1000).1.stats.msgs_rx =
      exConvAuth99.stats.msgs_rx + 1 :=
  ⟨rfl, by decide, by decide⟩

/-- C9 witness: the amended statistics law applied to the concrete
authenticated pong. -/
theorem C9_stats_update_witness :
    if (if exConvAuth99.connection.has_public_key then true
        else exConvAuth99.connection.is_solicited (exPong 5 (some 99))) then
      (exConvAuth99.chat_step exLocalPeer exView 1000
          (exPong 5 (some 99))).1.stats.msgs_rx =
        exConvAuth99.stats.msgs_rx + 1 ∧
      (exConvAuth99.chat_step exLocalPeer exView 1000
          (exPong 5 (some 99))).1.stats.msg_rx_counts.lookup
          (exPong 5 (some 99)).payload.get_message_id =
        some ((exConvAuth99.stats.msg_rx_counts.lookup
          (exPong 5 (some 99)).payload.get_message_id).getD 0 + 1) ∧
      (exConvAuth99.chat_step exLocalPeer exView 1000
          (exPong 5 (some 99))).1.stats.last_recv_time = 1000 ∧
      (exConvAuth99.chat_step exLocalPeer exView 1000
          (exPong 5 (some 99))).1.stats.last_contact_time = 1000 ∧
      (exConvAuth99.chat_step exLocalPeer exView 1000
          (exPong 5 (some 99))).1.stats.healthpoints =
        trim_healthpoints (exConvAuth99.stats.healthpoints ++
          [({ success := true, time := 1000 } : NeighborHealthPoint)]) ∧
      (exConvAuth99.chat_step exLocalPeer exView 1000
          (exPong 5 (some 99))).1.stats.first_contact_time =
        (if exConvAuth99.stats.first_contact_time = 0 then 1000
         else exConvAuth99.stats.first_contact_time) ∧
      (exConvAuth99.chat_step exLocalPeer exView 1000
          (exPong 5 (some 99))).1.stats.msgs_rx_unsolicited =
        exConvAuth99.stats.msgs_rx_unsolicited
    else
      (exConvAuth99.chat_step exLocalPeer exView 1000
          (exPong 5 (some 99))).1.stats.msgs_rx_unsolicited =
        exConvAuth99.stats.msgs_rx_unsolicited + 1 ∧
      (exConvAuth99.chat_step exLocalPeer exView 1000
          (exPong 5 (some 99))).1.stats.msgs_rx =
        exConvAuth99.stats.msgs_rx ∧
      (exConvAuth99.chat_step exLocalPeer exView 1000
          (exPong 5 (some 99))).1.stats.msg_rx_counts =
        exConvAuth99.stats.msg_rx_counts ∧
      (exConvAuth99.chat_step exLocalPeer exView 1000
          (exPong 5 (some 99))).1.stats.healthpoints =
        exConvAuth99.stats.healthpoints ∧
      (exConvAuth99.chat_step exLocalPeer exView 1000
          (exPong 5 (some 99))).1.stats.last_recv_time =
        exConvAuth99.stats.last_recv_time ∧
      (exConvAuth99.chat_step exLocalPeer exView 1000
          (exPong 5 (some 99))).1.stats.last_contact_time =
        exConvAuth99.stats.last_contact_time ∧
      (exConvAuth99.chat_step exLocalPeer exView 1000
          (exPong 5 (some 99))).1.stats.first_contact_time =
        exConvAuth99.stats.first_contact_time :=
  C9_stats_update exConvAuth99 exLocalPeer exView 1000 (exPong 5 (some 99))
    (exConvAuth99.chat_step exLocalPeer exView 1000 (exPong 5 (some 99))).1
    none none rfl

/-- C10: when `register` succeeds in creating a conversation for a new
socket, the conversation's initial public key is the stored peer record's
key exactly when such a record exists and its `expire_block` lies strictly
below the chain view's `burn_block_height`; otherwise (no record, or a
record whose key has not yet expired) the conversation starts with no
public key. -/
theorem C10_register_initial_key (pn : PeerNetwork) (event_id : Nat)
    (client_addr : SocketAddr) (outbound : Bool) (now : Nat)
    (h : (pn.register event_id client_addr outbound none now).isOk = true) :
    ((pn.register event_id client_addr outbound none now).toOption.bind
        (fun pn2 => pn2.peers.lookup event_id)).map
        (fun convo => convo.connection.public_key) =
      some (match pn.peerdb.get_peer pn.burnchain.network_id
          (PeerAddress.from_socketaddr client_addr) client_addr.port with
        | some n => if n.expire_block < pn.chain_view.burn_block_height
            then some n.public_key else none
        | none => none) := by
  unfold PeerNetwork.register PeerNetwork.lookup_peer at h ⊢
  cases hg : pn.peerdb.get_peer pn.burnchain.network_id
      (PeerAddress.from_socketaddr client_addr) client_addr.port with
  | none =>
      simp only [hg, bind, Except.bind, pure, Except.pure] at h ⊢
      cases hcr : pn.can_register (NeighborKey.from_socketaddr
          pn.burnchain.peer_version pn.burnchain.network_id client_addr)
          outbound with
      | error e => simp [hcr, Except.isOk, Except.toBool] at h
      | ok u =>
          by_cases hnp : pn.network_present = true
          · simp [hcr, hnp, List.lookup, Conversation.set_public_key,
              ConnectionP2P.set_public_key, Conversation.new,
              ConnectionP2P.new, Except.toOption, Option.bind,
              beq_self_eq_true]
          · simp [hcr, hnp, Except.isOk, Except.toBool] at h
  | some n =>
      by_cases hex : n.expire_block < pn.chain_view.burn_block_height
      · simp only [hg, hex, if_pos, bind, Except.bind, pure, Except.pure] at h ⊢
        cases hcr : pn.can_register n.addr outbound with
        | error e => simp [hcr, Except.isOk, Except.toBool] at h
        | ok u =>
            by_cases hnp : pn.network_present = true
            · simp [hcr, hnp, hex, List.lookup, Conversation.set_public_key,
                ConnectionP2P.set_public_key, Conversation.new,
                ConnectionP2P.new, Except.toOption, Option.bind,
                beq_self_eq_true]
            · simp [hcr, hnp, Except.isOk, Except.toBool] at h
      · simp only [hg, hex, if_neg, bind, Except.bind, pure, Except.pure] at h ⊢
        cases hcr : pn.can_register (NeighborKey.from_socketaddr
            pn.burnchain.peer_version pn.burnchain.network_id client_addr)
            outbound with
        | error e => simp [hcr, Except.isOk, Except.toBool] at h
        | ok u =>
            by_cases hnp : pn.network_present = true
            · simp [hcr, hnp, hex, List.lookup, Conversation.set_public_key,
                ConnectionP2P.set_public_key, Conversation.new,
                ConnectionP2P.new, Except.toOption, Option.bind,
                beq_self_eq_true]
            · simp [hcr, hnp, Except.isOk, Except.toBool] at h

/-- The routing key 2:8081 on the test network. -/
def exNeighborKey : NeighborKey :=
  { peer_version := 0x18000000
    network_id := 0x9abcdef0
    addrbytes := 2
    port := 8081 }

/-- A stored peer record for 2:8081 whose key 42 expired at block 12000. -/
def exNeighbor : Neighbor :=
  { addr := exNeighborKey
    public_key := 42
    expire_block := 12000 }

/-- A peer network holding only that record, with a live network handle. -/
def exPeerNetwork : PeerNetwork :=
  { local_peer := exLocalPeer
    peerdb := ⟨[exNeighbor]⟩
    burnchain := exBurnchain
    chain_view := exView
    peers := []
    sockets := []
    events := []
    connection_opts := ⟨3600, 10⟩
    network_present := true }

/-- C10 witness: registering 2:8081 finds the expired record and seeds the
conversation with its key. -/
theorem C10_register_initial_key_witness :
    ((exPeerNetwork.register 1 ⟨2, 8081⟩ true none 0).toOption.bind
        (fun pn2 => pn2.peers.lookup 1)).map
        (fun convo => convo.connection.public_key) =
      some (match exPeerNetwork.peerdb.get_peer exPeerNetwork.burnchain.network_id
          (PeerAddress.from_socketaddr ⟨2, 8081⟩) (⟨2, 8081⟩ : SocketAddr).port with
        | some n => if n.expire_block < exPeerNetwork.chain_view.burn_block_height
            then some n.public_key else none
        | none => none) :=
  C10_register_initial_key exPeerNetwork 1 ⟨2, 8081⟩ true 0 (by decide)
